import Mathlib

/-!
Shallow embedding of the two Next.js route handlers of the repository
(`src/web/src/app/api/generate/route.ts` and
`src/web/src/app/api/upload/route.ts`) and proofs about them.

Conventions of the embedding:
* A JavaScript value that may be `undefined`/`null` is an `Option`.
* JavaScript numbers are modelled as `JNum`: an exact rational for the
  finite doubles, plus `nan`, `posInf`, `negInf` (all reachable at the
  modelled sites: `Number(undefined)` is NaN and `JSON.parse "1e999"`
  is Infinity).
* Truthiness of a possibly-absent string (`!s`, `s ? a : b`, `s || d`)
  is `jsTruthyS`.
* The handlers are modelled up to their outbound `fetch` calls: the
  body a handler would send upstream is returned as data, and the
  outcome of each vendor call that the handler awaits is an explicit
  argument, so that "the vendor is never called" is visible in the
  result.
-/

/-- A JavaScript number: a finite double (kept as an exact rational),
NaN, or one of the two infinities. -/
inductive JNum where
  | finite (q : ℚ)
  | nan
  | posInf
  | negInf
deriving DecidableEq, Repr

/-- `Number.isFinite` on a `JNum`. -/
def JNum.isFinite : JNum → Bool
  | .finite _ => true
  | _ => false

/-- JavaScript truthiness of a number: everything except `0`, `-0` and
`NaN` is truthy. -/
def JNum.truthy : JNum → Bool
  | .finite q => decide (q ≠ 0)
  | .nan => false
  | .posInf => true
  | .negInf => true

/-- JavaScript truthiness of a string-or-undefined value: `undefined`,
`null` and the empty string are falsy, every other string is truthy. -/
def jsTruthyS : Option String → Bool
  | none => false
  | some s => decide (s ≠ "")

/-- `a || d` for a possibly-absent string `a` and default `d`. -/
def jsOrS (a : Option String) (d : String) : String :=
  if jsTruthyS a then a.getD "" else d

/-- The character class removed by JavaScript `String.prototype.trim`:
ECMAScript WhiteSpace and LineTerminator code points. -/
def jsWhitespace (c : Char) : Bool :=
  c ∈ [' ', '\t', '\n', '\r', '\x0b', '\x0c', ' ', '﻿',
       ' ', ' ', ' ', ' ', ' ', ' ',
       ' ', ' ', ' ', ' ', ' ', ' ',
       ' ', ' ', ' ', ' ', '　']

/-- JavaScript `String.prototype.trim`: strip leading and trailing
ECMAScript whitespace. -/
def jsTrim (s : String) : String :=
  ⟨((s.data.dropWhile jsWhitespace).reverse.dropWhile jsWhitespace).reverse⟩

/-- `Array.prototype.join` with a fixed separator, as used on the
caption segments (`join("\n\n")`). -/
def joinSep (sep : String) : List String → String
  | [] => ""
  | [s] => s
  | s :: rest => s ++ sep ++ joinSep sep rest

/-- `.filter(Boolean)` on an array of `string | null` values: drops
`null` and the empty string. -/
def filterBoolean (l : List (Option String)) : List String :=
  l.filterMap fun o =>
    match o with
    | none => none
    | some s => if s = "" then none else some s

/-- The fixed hashtag line appended to every composed caption
(`upload/route.ts`, line 157). -/
def hashtagLine : String := "#aiart #figuredrawing #digitalart #agentic"

/-- Caption composition of `publishToInstagram`
(`upload/route.ts`, lines 153-160):
`[caption?.trim() || "", prompt ? ... : null, style ? ... : null,
hashtags].filter(Boolean).join("\n\n")`. -/
def finalCaption (caption prompt style : Option String) : String :=
  joinSep "\n\n" (filterBoolean
    [ some (jsOrS (caption.map jsTrim) ""),
      if jsTruthyS prompt then some ("Prompt: " ++ prompt.getD "") else none,
      if jsTruthyS style then some ("Style: " ++ style.getD "") else none,
      some hashtagLine ])

/-! ### Generate handler (`src/web/src/app/api/generate/route.ts`) -/

/-- The static style table `STYLE_PRESETS`
(`generate/route.ts`, lines 3-14). -/
def STYLE_PRESETS : List (String × String) :=
  [ ("figurative-ink",
     "intricate ink washes, elegant contour lines, subtle shading, gallery lighting"),
    ("digital-watercolor",
     "digital watercolor washes, translucent pigments, soft gradients, expressive strokes"),
    ("hyperreal-brush",
     "hyperreal digital painting, finely detailed skin texture, cinematic lighting, depth of field"),
    ("comic-neo",
     "neo-noir comic rendering, bold inked shadows, halftone highlights, dramatic perspective"),
    ("concept-art",
     "concept art matte painting, atmospheric depth, dynamic posing, professional artstation style") ]

/-- The properties the `STYLE_PRESETS` object literal inherits from
`Object.prototype`, paired with the string each inherited value
interpolates to in a template literal (the ES NativeFunction rendering
used by Node/V8 for the methods; `__proto__` reads back
`Object.prototype` itself, which stringifies to "[object Object]").
Every one of these values is truthy in JavaScript. -/
def OBJECT_PROTOTYPE_COERCIONS : List (String × String) :=
  [ ("constructor", "function Object() \x7b [native code] \x7d"),
    ("hasOwnProperty", "function hasOwnProperty() \x7b [native code] \x7d"),
    ("isPrototypeOf", "function isPrototypeOf() \x7b [native code] \x7d"),
    ("propertyIsEnumerable", "function propertyIsEnumerable() \x7b [native code] \x7d"),
    ("toLocaleString", "function toLocaleString() \x7b [native code] \x7d"),
    ("toString", "function toString() \x7b [native code] \x7d"),
    ("valueOf", "function valueOf() \x7b [native code] \x7d"),
    ("__defineGetter__", "function __defineGetter__() \x7b [native code] \x7d"),
    ("__defineSetter__", "function __defineSetter__() \x7b [native code] \x7d"),
    ("__lookupGetter__", "function __lookupGetter__() \x7b [native code] \x7d"),
    ("__lookupSetter__", "function __lookupSetter__() \x7b [native code] \x7d"),
    ("__proto__", "[object Object]") ]

/-- The JavaScript property access `STYLE_PRESETS[key]`: an own
property yields its descriptor string; otherwise the lookup walks the
prototype chain, so a key naming an `Object.prototype` property yields
that inherited value (truthy; recorded here by the string it coerces
to when interpolated at `generate/route.ts` line 66); any other key
yields `undefined`. -/
def stylePresetAccess (key : String) : Option String :=
  match STYLE_PRESETS.lookup key with
  | some d => some d
  | none => OBJECT_PROTOTYPE_COERCIONS.lookup key

/-- The request body of the Generate endpoint (`GenerationPayload` in
`generate/route.ts`); each field may be absent at runtime. -/
structure GenerationPayload where
  prompt : Option String := none
  negativePrompt : Option String := none
  aspectRatio : Option String := none
  style : Option String := none
  guidance : Option JNum := none
deriving DecidableEq, Repr

/-- The JSON body the Generate handler posts to the image-generation
vendor (`generate/route.ts`, lines 69-76). -/
structure StabilityBody where
  mode : String
  prompt : String
  negative_prompt : Option String
  aspect_ratio : String
  output_format : String
  cfg_scale : ℚ
deriving DecidableEq, Repr

/-- What the Generate handler does before (or instead of) calling the
vendor: either an early JSON error response, or the outbound call with
its body. -/
inductive GenOutcome where
  | response (status : Nat) (error : String)
  | upstream (body : StabilityBody)
deriving DecidableEq, Repr

/-- The request body built by the Generate handler once validation has
passed (`generate/route.ts`, lines 59-76); at that point the `prompt`
variable equals `jsTrim` of the (present) `payload.prompt`. -/
def stabilityBodyOf (payload : GenerationPayload) : StabilityBody :=
  let prompt := jsTrim (payload.prompt.getD "")
  let knockOut := jsTrim (jsOrS payload.negativePrompt "")
  let aspectRatio := jsOrS payload.aspectRatio "1:1"
  -- typeof payload.guidance === "number" ? payload.guidance : 7.5
  let cfgScale : JNum :=
    match payload.guidance with
    | some g => g
    | none => .finite 7.5
  let stylePreset : Option String :=
    if jsTruthyS payload.style then
      stylePresetAccess (payload.style.getD "")
    else none
  let finalPrompt :=
    match stylePreset with
    | some sp => prompt ++ ", " ++ sp
    | none => prompt
  { mode := "text-to-image"
    prompt := finalPrompt
    negative_prompt := if knockOut = "" then none else some knockOut
    aspect_ratio := aspectRatio
    output_format := "png"
    -- Number.isFinite(cfgScale) ? Math.max(1, Math.min(20, cfgScale)) : 7.5
    cfg_scale :=
      match cfgScale with
      | .finite q => max 1 (min 20 q)
      | _ => 7.5 }

/-- The Generate handler up to its single outbound `fetch`
(`generate/route.ts`, lines 30-86). `stabilityApiKey` is
`process.env.STABILITY_API_KEY`; `body` is the JSON-parsed request
body (`none` when `request.json()` throws). -/
def generatePOST (stabilityApiKey : Option String)
    (body : Option GenerationPayload) : GenOutcome :=
  if ¬ jsTruthyS stabilityApiKey then
    .response 500
      "STABILITY_API_KEY is not set. Provide a valid Stability AI key via environment variables."
  else
    match body with
    | none => .response 400 "Invalid JSON payload."
    | some payload =>
      -- const prompt = payload.prompt?.trim(); if (!prompt) ...
      match payload.prompt.map jsTrim with
      | none => .response 400 "Prompt is required."
      | some prompt =>
        if prompt = "" then .response 400 "Prompt is required."
        else .upstream (stabilityBodyOf payload)

/-- `Number(x)` applied to the possibly-absent value
`json?.metrics?.inference`: `Number(undefined)` is NaN, a number is
unchanged. -/
def jsNumberOfOpt : Option JNum → JNum
  | none => .nan
  | some n => n

/-- `Number(json?.metrics?.inference) || undefined`
(`generate/route.ts`, line 124): the field is kept exactly when the
converted number is truthy (neither `0` nor NaN). -/
def inferenceTimeField (m : Option JNum) : Option JNum :=
  let n := jsNumberOfOpt m
  if n.truthy then some n else none

/-- The success body of the Generate endpoint
(`generate/route.ts`, lines 121-125). -/
structure GenerateSuccess where
  base64Image : String
  model : Option String
  inferenceTime : Option JNum
deriving DecidableEq, Repr

/-- Construction of the Generate success response from the vendor's
parsed JSON (`generate/route.ts`, lines 109-125). `artifactBase64` is
`json?.artifacts?.[0]?.base64`, `headerModelId` is the
`stability-model-id` response header, `metricsInference` is
`json?.metrics?.inference`. `none` is the 502
"No image returned from the Stability API." branch. -/
def generateSuccess (artifactBase64 model_id headerModelId : Option String)
    (metricsInference : Option JNum) : Option GenerateSuccess :=
  if ¬ jsTruthyS artifactBase64 then none
  else some
    { base64Image := artifactBase64.getD ""
      -- json?.model_id ?? response.headers.get("stability-model-id")
      model := model_id.orElse fun _ => headerModelId
      inferenceTime := inferenceTimeField metricsInference }

/-! ### Upload handler (`src/web/src/app/api/upload/route.ts`) -/

/-- The request body of the Upload endpoint (`UploadPayload` in
`upload/route.ts`); each field may be absent at runtime. -/
structure UploadPayload where
  imageData : Option String := none
  caption : Option String := none
  prompt : Option String := none
  style : Option String := none
deriving DecidableEq, Repr

/-- `ensureEnv` (`upload/route.ts`, lines 14-19): throws when the
environment value is falsy. -/
def ensureEnv (name : String) (value : Option String) : Except String String :=
  if ¬ jsTruthyS value then
    .error (name ++ " is not set. Please configure it in your environment.")
  else .ok (value.getD "")

/-- The two social-platform credentials read by `publishToInstagram`. -/
structure IgEnv where
  accessToken : Option String := none
  igUserId : Option String := none
deriving DecidableEq, Repr

/-- The JSON-parsed response of one Instagram Graph call, as the
handler inspects it: HTTP `ok` flag and status, optional `id`,
optional `error.message`. -/
structure GraphResponse where
  ok : Bool
  status : Nat
  id : Option String := none
  errorMessage : Option String := none
deriving DecidableEq, Repr

/-- `containerJson?.error?.message || "Failed to ... (status)."`
(`upload/route.ts`, lines 181-186 and 206-211). -/
def graphFailureMsg (fallbackWhat : String) (r : GraphResponse) : String :=
  if jsTruthyS r.errorMessage then r.errorMessage.getD ""
  else fallbackWhat ++ " (" ++ toString r.status ++ ")."

/-- The identifiers returned by a successful `publishToInstagram`. -/
structure PublishOk where
  containerId : String
  publishId : String
deriving DecidableEq, Repr

deriving instance DecidableEq for Except

/-- Trace of one `publishToInstagram` run: its result (`Except.error`
models a throw, carrying the `Error` message) and which of the two
Graph calls were actually issued, plus the caption sent with the
container call. -/
structure PublishTrace where
  result : Except String PublishOk
  containerCalled : Bool
  publishCalled : Bool
  captionSent : Option String
deriving DecidableEq, Repr

/-- `publishToInstagram` (`upload/route.ts`, lines 133-217), with the
outcomes of its two Graph fetches passed in. -/
def publishToInstagram (env : IgEnv) (caption prompt style : Option String)
    (containerResp publishResp : GraphResponse) : PublishTrace :=
  match ensureEnv "INSTAGRAM_ACCESS_TOKEN" env.accessToken with
  | .error e => ⟨.error e, false, false, none⟩
  | .ok _ =>
    match ensureEnv "INSTAGRAM_IG_USER_ID" env.igUserId with
    | .error e => ⟨.error e, false, false, none⟩
    | .ok _ =>
      let cap := finalCaption caption prompt style
      -- first Graph call: media container creation
      if ¬ (containerResp.ok ∧ jsTruthyS containerResp.id) then
        ⟨.error (graphFailureMsg "Failed to create Instagram media container" containerResp),
         true, false, some cap⟩
      else
        -- second Graph call: media publish
        if ¬ (publishResp.ok ∧ jsTruthyS publishResp.id) then
          ⟨.error (graphFailureMsg "Failed to publish Instagram media" publishResp),
           true, true, some cap⟩
        else
          ⟨.ok ⟨containerResp.id.getD "", publishResp.id.getD ""⟩, true, true, some cap⟩

/-- The JSON response of the Upload endpoint. -/
structure UploadResponse where
  status : Nat
  error : Option String := none
  imageUrl : Option String := none
  containerId : Option String := none
  publishId : Option String := none
deriving DecidableEq, Repr

/-- Trace of one Upload request: the response plus which outbound
calls were issued (the Cloudinary upload, and the two Graph calls). -/
structure UploadTrace where
  response : UploadResponse
  hostingCalled : Bool
  containerCalled : Bool
  publishCalled : Bool
deriving DecidableEq, Repr

/-- The Upload handler `POST` (`upload/route.ts`, lines 21-81). `body`
is the JSON-parsed request body (`none` when `request.json()` throws);
`hostingOutcome` is what `uploadToCloudinary` would do if invoked
(`Except.error` models any throw inside it, including a missing
Cloudinary credential); `containerResp`/`publishResp` are the Graph
responses `publishToInstagram` would see. -/
def uploadPOST (body : Option UploadPayload)
    (hostingOutcome : Except String String)
    (env : IgEnv) (containerResp publishResp : GraphResponse) : UploadTrace :=
  match body with
  | none => ⟨⟨400, some "Invalid JSON payload.", none, none, none⟩, false, false, false⟩
  | some payload =>
    if ¬ jsTruthyS payload.imageData then
      ⟨⟨400, some "imageData is required.", none, none, none⟩, false, false, false⟩
    else
      match hostingOutcome with
      | .error msg =>
        ⟨⟨502, some ("Cloudinary upload failed: " ++ msg), none, none, none⟩,
         true, false, false⟩
      | .ok cloudinaryUrl =>
        let t := publishToInstagram env payload.caption payload.prompt payload.style
          containerResp publishResp
        match t.result with
        | .ok r =>
          ⟨⟨200, none, some cloudinaryUrl, some r.containerId, some r.publishId⟩,
           true, t.containerCalled, t.publishCalled⟩
        | .error msg =>
          ⟨⟨502, some ("Instagram publish failed: " ++ msg), some cloudinaryUrl, none, none⟩,
           true, t.containerCalled, t.publishCalled⟩


/-! ### Characterisation lemmas -/

/-- A Generate request reaches the outbound vendor call exactly when
the credential is truthy and the trimmed prompt is a non-empty string;
the body sent is `stabilityBodyOf`. -/
theorem generatePOST_upstream_iff (k : Option String) (p : GenerationPayload)
    (b : StabilityBody) :
    generatePOST k (some p) = .upstream b ↔
      jsTruthyS k = true ∧ (∃ s, p.prompt = some s ∧ jsTrim s ≠ "") ∧ b = stabilityBodyOf p := by
  unfold generatePOST
  cases hk : jsTruthyS k <;> cases hp : p.prompt <;> simp [hk, hp]
  rename_i v
  by_cases hs : jsTrim v = "" <;> simp [hs, eq_comm]

/-- `filter(Boolean)` distributes over array concatenation. -/
theorem filterBoolean_append (l₁ l₂ : List (Option String)) :
    filterBoolean (l₁ ++ l₂) = filterBoolean l₁ ++ filterBoolean l₂ :=
  List.filterMap_append _ _ _

/-- Joining a list whose last element is `x` produces a string ending
in `x`. -/
theorem joinSep_concat (sep x : String) :
    ∀ l : List String, ∃ pre, joinSep sep (l ++ [x]) = pre ++ x
  | [] => ⟨"", rfl⟩
  | [a] => ⟨a ++ sep, by simp [joinSep, String.append_assoc]⟩
  | a :: b :: l => by
    obtain ⟨pre, hp⟩ := joinSep_concat sep x (b :: l)
    exact ⟨a ++ sep ++ pre, by
      show a ++ sep ++ joinSep sep (b :: l ++ [x]) = a ++ sep ++ pre ++ x
      rw [hp]; simp [String.append_assoc]⟩

/-! ### Claims -/

/-- C1, amended: a Generate request whose prompt is absent, empty or
whitespace-only after trimming never reaches the upstream vendor; when
the upstream credential is configured (truthy) the handler answers 400
"Prompt is required.", but when the credential is absent the handler
returns 500 (the credential check precedes prompt validation), not
400. -/
theorem claim_C1_amended (k : Option String) (p : GenerationPayload)
    (hblank : p.prompt = none ∨ jsTrim (p.prompt.getD "") = "") :
    (jsTruthyS k = true →
      generatePOST k (some p) = .response 400 "Prompt is required.")
    ∧ (jsTruthyS k = false →
      generatePOST k (some p) = .response 500
        "STABILITY_API_KEY is not set. Provide a valid Stability AI key via environment variables.")
    ∧ (∀ b, generatePOST k (some p) ≠ .upstream b) := by
  rcases hblank with h | h
  · cases hk : jsTruthyS k <;> simp [generatePOST, hk, h]
  · cases hp : p.prompt
    · cases hk : jsTruthyS k <;> simp [generatePOST, hk, hp]
    · rename_i s
      rw [hp] at h; simp at h
      cases hk : jsTruthyS k <;> simp [generatePOST, hk, hp, h]

/-- C1 witness: with the credential configured, a whitespace-only
prompt gets 400; without it, the same request gets 500. -/
theorem claim_C1_witness :
    generatePOST (some "sk-test") (some { prompt := some "   " }) =
      .response 400 "Prompt is required."
    ∧ generatePOST none (some { prompt := some "   " }) =
      .response 500
        "STABILITY_API_KEY is not set. Provide a valid Stability AI key via environment variables." :=
  ⟨(claim_C1_amended (some "sk-test") _ (Or.inr (by decide))).1 (by decide),
   (claim_C1_amended none _ (Or.inr (by decide))).2.1 rfl⟩

/-- C1 counterexample: with the upstream credential unset and a
whitespace-only prompt, the Generate endpoint returns 500, not the
claimed 400. -/
theorem claim_C1_counterexample :
    generatePOST none (some { prompt := some "   " }) =
      .response 500
        "STABILITY_API_KEY is not set. Provide a valid Stability AI key via environment variables."
    ∧ (500 : ℕ) ≠ 400 :=
  ⟨by decide, by decide⟩

/-- C2: the composed caption for caption "A", prompt "B", style "C" is
exactly the claimed string; an empty caption behaves as an absent one
(the leading segment is omitted); and every composed caption ends in
the fixed hashtag line. -/
theorem claim_C2 :
    finalCaption (some "A") (some "B") (some "C") =
      "A\n\nPrompt: B\n\nStyle: C\n\n#aiart #figuredrawing #digitalart #agentic"
    ∧ finalCaption (some "") (some "B") (some "C") =
      "Prompt: B\n\nStyle: C\n\n#aiart #figuredrawing #digitalart #agentic"
    ∧ (∀ p s, finalCaption (some "") p s = finalCaption none p s)
    ∧ (∀ c p s, ∃ pre, finalCaption c p s = pre ++ hashtagLine) := by
  refine ⟨by decide, by decide, fun p s => rfl, fun c p s => ?_⟩
  unfold finalCaption
  rw [show
      [ some (jsOrS (c.map jsTrim) ""),
        if jsTruthyS p then some ("Prompt: " ++ p.getD "") else none,
        if jsTruthyS s then some ("Style: " ++ s.getD "") else none,
        some hashtagLine ] =
      [ some (jsOrS (c.map jsTrim) ""),
        if jsTruthyS p then some ("Prompt: " ++ p.getD "") else none,
        if jsTruthyS s then some ("Style: " ++ s.getD "") else none ] ++
      [some hashtagLine] from rfl,
    filterBoolean_append]
  rw [show filterBoolean [some hashtagLine] = [hashtagLine] from rfl]
  exact joinSep_concat "\n\n" hashtagLine _

/-- C3: when hosting succeeded (`Except.ok url`) and the publish step
fails for any reason, the 502 response still carries the hosted URL. -/
theorem claim_C3 (p : UploadPayload) (url e : String) (env : IgEnv) (cr pr : GraphResponse)
    (hi : jsTruthyS p.imageData = true)
    (hfail : (publishToInstagram env p.caption p.prompt p.style cr pr).result = .error e) :
    (uploadPOST (some p) (.ok url) env cr pr).response.status = 502
    ∧ (uploadPOST (some p) (.ok url) env cr pr).response.imageUrl = some url := by
  simp [uploadPOST, hi, hfail]

/-- C3 witness: hosting succeeds, publish fails because the Instagram
access token is missing; the 502 response carries the hosted URL. -/
theorem claim_C3_witness :
    (uploadPOST (some { imageData := some "x" }) (.ok "https://res.example/img.png") {}
        ⟨true, 200, some "c", none⟩ ⟨true, 200, some "p", none⟩).response.status = 502
    ∧ (uploadPOST (some { imageData := some "x" }) (.ok "https://res.example/img.png") {}
        ⟨true, 200, some "c", none⟩ ⟨true, 200, some "p", none⟩).response.imageUrl =
      some "https://res.example/img.png" :=
  claim_C3 { imageData := some "x" } "https://res.example/img.png"
    "INSTAGRAM_ACCESS_TOKEN is not set. Please configure it in your environment."
    {} ⟨true, 200, some "c", none⟩ ⟨true, 200, some "p", none⟩ (by decide) rfl

/-- C4: when the hosting step throws, the Upload endpoint answers 502
and neither Instagram Graph call (container creation, publication) is
issued. -/
theorem claim_C4 (p : UploadPayload) (e : String) (env : IgEnv) (cr pr : GraphResponse)
    (hi : jsTruthyS p.imageData = true) :
    (uploadPOST (some p) (.error e) env cr pr).response.status = 502
    ∧ (uploadPOST (some p) (.error e) env cr pr).containerCalled = false
    ∧ (uploadPOST (some p) (.error e) env cr pr).publishCalled = false := by
  simp [uploadPOST, hi]

/-- C4 witness at a concrete failing hosting call. -/
theorem claim_C4_witness :
    (uploadPOST (some { imageData := some "x" }) (.error "boom") ⟨some "t", some "u"⟩
        ⟨true, 200, some "c", none⟩ ⟨true, 200, some "p", none⟩).response.status = 502
    ∧ (uploadPOST (some { imageData := some "x" }) (.error "boom") ⟨some "t", some "u"⟩
        ⟨true, 200, some "c", none⟩ ⟨true, 200, some "p", none⟩).containerCalled = false
    ∧ (uploadPOST (some { imageData := some "x" }) (.error "boom") ⟨some "t", some "u"⟩
        ⟨true, 200, some "c", none⟩ ⟨true, 200, some "p", none⟩).publishCalled = false :=
  claim_C4 { imageData := some "x" } "boom" ⟨some "t", some "u"⟩
    ⟨true, 200, some "c", none⟩ ⟨true, 200, some "p", none⟩ (by decide)

/-- C5, amended: a recognised style key appends exactly its descriptor
to the trimmed prompt, comma-separated, and a key that is absent or
hits neither the five presets nor an `Object.prototype` property
leaves the prompt unmodified; but the twelve keys naming inherited
`Object.prototype` properties (toString, constructor, __proto__, ...)
are not recognised preset keys yet still modify the prompt, because
the object lookup returns a truthy inherited value whose string
coercion is appended. -/
theorem claim_C5_amended (k : Option String) (p : GenerationPayload) (b : StabilityBody)
    (h : generatePOST k (some p) = .upstream b) :
    (∀ s d, p.style = some s → STYLE_PRESETS.lookup s = some d →
        b.prompt = jsTrim (p.prompt.getD "") ++ ", " ++ d)
    ∧ (p.style = none → b.prompt = jsTrim (p.prompt.getD ""))
    ∧ (∀ s, p.style = some s → STYLE_PRESETS.lookup s = none →
        OBJECT_PROTOTYPE_COERCIONS.lookup s = none →
        b.prompt = jsTrim (p.prompt.getD ""))
    ∧ (∀ s c, p.style = some s → STYLE_PRESETS.lookup s = none →
        OBJECT_PROTOTYPE_COERCIONS.lookup s = some c →
        b.prompt = jsTrim (p.prompt.getD "") ++ ", " ++ c) := by
  obtain ⟨-, -, rfl⟩ := (generatePOST_upstream_iff k p b).1 h
  refine ⟨?_, ?_, ?_, ?_⟩
  · intro s d hst hd
    by_cases hse : s = ""
    · subst hse
      have hnone : STYLE_PRESETS.lookup "" = none := rfl
      rw [hnone] at hd; simp at hd
    · simp [stabilityBodyOf, stylePresetAccess, hst, jsTruthyS, hse, hd]
  · intro hst
    simp [stabilityBodyOf, hst, jsTruthyS]
  · intro s hst hd hc
    by_cases hse : s = "" <;>
      simp [stabilityBodyOf, stylePresetAccess, hst, jsTruthyS, hse, hd, hc]
  · intro s c hst hd hc
    by_cases hse : s = ""
    · subst hse
      have hnone : OBJECT_PROTOTYPE_COERCIONS.lookup "" = none := rfl
      rw [hnone] at hc; simp at hc
    · simp [stabilityBodyOf, stylePresetAccess, hst, jsTruthyS, hse, hd, hc]

/-- C5 witness: style "comic-neo" appends its fixed descriptor to the
trimmed prompt, and style "nope" (no preset, no inherited property)
leaves it unmodified. -/
theorem claim_C5_witness :
    (stabilityBodyOf { prompt := some " hi ", style := some "comic-neo" }).prompt =
      jsTrim ((some " hi ").getD "") ++ ", " ++
        "neo-noir comic rendering, bold inked shadows, halftone highlights, dramatic perspective"
    ∧ (stabilityBodyOf { prompt := some " hi ", style := some "nope" }).prompt =
      jsTrim ((some " hi ").getD "") :=
  ⟨(claim_C5_amended (some "k") { prompt := some " hi ", style := some "comic-neo" } _ rfl).1
      "comic-neo"
      "neo-noir comic rendering, bold inked shadows, halftone highlights, dramatic perspective"
      rfl rfl,
   (claim_C5_amended (some "k") { prompt := some " hi ", style := some "nope" } _ rfl).2.2.1
      "nope" rfl rfl rfl⟩

/-- C5 counterexample: the style key "toString" is not one of the five
recognised preset keys, yet the forwarded prompt is not the trimmed
prompt unmodified — the inherited `Object.prototype.toString` is
truthy and its string coercion is appended. -/
theorem claim_C5_counterexample :
    generatePOST (some "k") (some { prompt := some "hi", style := some "toString" }) =
      .upstream (stabilityBodyOf { prompt := some "hi", style := some "toString" })
    ∧ (stabilityBodyOf { prompt := some "hi", style := some "toString" }).prompt =
        "hi, function toString() \x7b [native code] \x7d"
    ∧ STYLE_PRESETS.lookup "toString" = none
    ∧ ("hi, function toString() \x7b [native code] \x7d" : String) ≠ "hi" :=
  ⟨rfl, rfl, rfl, by decide⟩

/-- C6: the forwarded cfg_scale is 7.5 for an absent or non-finite
guidance, and the guidance clamped into [1, 20] otherwise. -/
theorem claim_C6 (k : Option String) (p : GenerationPayload) (b : StabilityBody)
    (h : generatePOST k (some p) = .upstream b) :
    ((p.guidance = none ∨ p.guidance = some .nan ∨ p.guidance = some .posInf ∨
        p.guidance = some .negInf) → b.cfg_scale = 7.5)
    ∧ (∀ q : ℚ, p.guidance = some (.finite q) →
        (q < 1 → b.cfg_scale = 1) ∧ (20 < q → b.cfg_scale = 20) ∧
        (1 ≤ q → q ≤ 20 → b.cfg_scale = q)) := by
  obtain ⟨-, -, rfl⟩ := (generatePOST_upstream_iff k p b).1 h
  constructor
  · rintro (hg | hg | hg | hg) <;> simp [stabilityBodyOf, hg]
    norm_num
  · intro q hq
    simp only [stabilityBodyOf, hq]
    refine ⟨?_, ?_, ?_⟩
    · intro hlt
      rw [min_eq_right (by linarith), max_eq_left (by linarith)]
    · intro hgt
      rw [min_eq_left (by linarith)]
      rw [max_eq_right (by norm_num)]
    · intro h1 h2
      rw [min_eq_right h2, max_eq_right h1]

/-- C6 witness: guidance 25 is clamped to 20. -/
theorem claim_C6_witness :
    (stabilityBodyOf { prompt := some "hi", guidance := some (.finite 25) }).cfg_scale = 20 :=
  ((claim_C6 (some "k") { prompt := some "hi", guidance := some (.finite 25) } _ rfl).2
    25 rfl).2.1 (by decide)

/-- C7: a parsed Upload body whose imageData is missing or empty gets
400 and triggers no outbound call at all. -/
theorem claim_C7 (p : UploadPayload) (hosting : Except String String) (env : IgEnv)
    (cr pr : GraphResponse)
    (hmiss : p.imageData = none ∨ p.imageData = some "") :
    (uploadPOST (some p) hosting env cr pr).response.status = 400
    ∧ (uploadPOST (some p) hosting env cr pr).hostingCalled = false
    ∧ (uploadPOST (some p) hosting env cr pr).containerCalled = false
    ∧ (uploadPOST (some p) hosting env cr pr).publishCalled = false := by
  have hi : jsTruthyS p.imageData = false := by
    rcases hmiss with h | h <;> simp [jsTruthyS, h]
  simp [uploadPOST, hi]

/-- C7 witness at a concrete body with no imageData field. -/
theorem claim_C7_witness :
    (uploadPOST (some { caption := some "hello" }) (.ok "https://u") {}
        ⟨true, 200, some "c", none⟩ ⟨true, 200, some "p", none⟩).response.status = 400
    ∧ (uploadPOST (some { caption := some "hello" }) (.ok "https://u") {}
        ⟨true, 200, some "c", none⟩ ⟨true, 200, some "p", none⟩).hostingCalled = false
    ∧ (uploadPOST (some { caption := some "hello" }) (.ok "https://u") {}
        ⟨true, 200, some "c", none⟩ ⟨true, 200, some "p", none⟩).containerCalled = false
    ∧ (uploadPOST (some { caption := some "hello" }) (.ok "https://u") {}
        ⟨true, 200, some "c", none⟩ ⟨true, 200, some "p", none⟩).publishCalled = false :=
  claim_C7 { caption := some "hello" } (.ok "https://u") {}
    ⟨true, 200, some "c", none⟩ ⟨true, 200, some "p", none⟩ (Or.inl rfl)

/-- C8, amended: the aspect-ratio forwarded to the vendor is "1:1"
when the aspectRatio field is absent or the empty string, and the
supplied string verbatim when it is non-empty. -/
theorem claim_C8_amended (k : Option String) (p : GenerationPayload) (b : StabilityBody)
    (h : generatePOST k (some p) = .upstream b) :
    ((p.aspectRatio = none ∨ p.aspectRatio = some "") → b.aspect_ratio = "1:1")
    ∧ (∀ s, p.aspectRatio = some s → s ≠ "" → b.aspect_ratio = s) := by
  obtain ⟨-, -, rfl⟩ := (generatePOST_upstream_iff k p b).1 h
  constructor
  · rintro (ha | ha) <;> simp [stabilityBodyOf, jsOrS, jsTruthyS, ha]
  · intro s ha hs
    simp [stabilityBodyOf, jsOrS, jsTruthyS, ha, hs]

/-- C8 witness: a non-empty aspect ratio is forwarded verbatim. -/
theorem claim_C8_witness :
    (stabilityBodyOf { prompt := some "hi", aspectRatio := some "16:9" }).aspect_ratio = "16:9" :=
  (claim_C8_amended (some "k") { prompt := some "hi", aspectRatio := some "16:9" } _ rfl).2
    "16:9" rfl (by decide)

/-- C8 counterexample: a supplied empty-string aspectRatio is not
forwarded verbatim; the vendor receives "1:1". -/
theorem claim_C8_counterexample :
    generatePOST (some "k") (some { prompt := some "hi", aspectRatio := some "" }) =
      .upstream (stabilityBodyOf { prompt := some "hi", aspectRatio := some "" })
    ∧ (stabilityBodyOf { prompt := some "hi", aspectRatio := some "" }).aspect_ratio = "1:1"
    ∧ ("1:1" : String) ≠ "" :=
  ⟨rfl, rfl, by decide⟩

/-- C9, amended: an unparseable body always gets 400 "Invalid JSON
payload." with no outbound call on the Upload endpoint; on the
Generate endpoint it gets that 400 only when the generation credential
is configured, because the credential check runs before body parsing
and otherwise answers 500. -/
theorem claim_C9_amended :
    (∀ (hosting : Except String String) (env : IgEnv) (cr pr : GraphResponse),
      uploadPOST none hosting env cr pr =
        ⟨⟨400, some "Invalid JSON payload.", none, none, none⟩, false, false, false⟩)
    ∧ (∀ k, jsTruthyS k = true →
        generatePOST k none = .response 400 "Invalid JSON payload.")
    ∧ (∀ k, jsTruthyS k = false →
        generatePOST k none = .response 500
          "STABILITY_API_KEY is not set. Provide a valid Stability AI key via environment variables.") := by
  refine ⟨fun hosting env cr pr => rfl, fun k hk => ?_, fun k hk => ?_⟩ <;>
    simp [generatePOST, hk]

/-- C9 witness: both endpoints at concrete unparseable bodies. -/
theorem claim_C9_witness :
    uploadPOST none (.ok "https://u") {} ⟨true, 200, some "c", none⟩ ⟨true, 200, some "p", none⟩ =
      ⟨⟨400, some "Invalid JSON payload.", none, none, none⟩, false, false, false⟩
    ∧ generatePOST (some "sk") none = .response 400 "Invalid JSON payload." :=
  ⟨claim_C9_amended.1 (.ok "https://u") {} ⟨true, 200, some "c", none⟩ ⟨true, 200, some "p", none⟩,
   claim_C9_amended.2.1 (some "sk") (by decide)⟩

/-- C9 counterexample: with the generation credential unset, an
unparseable body on the Generate endpoint gets 500, not the claimed
400. -/
theorem claim_C9_counterexample :
    generatePOST none none =
      .response 500
        "STABILITY_API_KEY is not set. Provide a valid Stability AI key via environment variables."
    ∧ (500 : ℕ) ≠ 400 :=
  ⟨by decide, by decide⟩

/-- C10, amended: on a successful generation the inferenceTime field
is present exactly when `Number` of the vendor metric is truthy
(neither 0 nor NaN); 0, NaN and absent metrics omit the field, a
non-zero finite metric keeps it, but an infinite metric (reachable
from the JSON literal 1e999) keeps it as well, so presence is not
equivalent to "converts to a non-zero finite number". -/
theorem claim_C10_amended (a m hdr : Option String) (met : Option JNum) (r : GenerateSuccess)
    (h : generateSuccess a m hdr met = some r) :
    (r.inferenceTime.isSome = (jsNumberOfOpt met).truthy)
    ∧ ((met = none ∨ met = some .nan ∨ met = some (.finite 0)) → r.inferenceTime = none)
    ∧ (∀ q : ℚ, met = some (.finite q) → q ≠ 0 → r.inferenceTime = some (.finite q)) := by
  unfold generateSuccess at h
  by_cases ha : jsTruthyS a
  · simp only [ha, not_true_eq_false, if_false, Option.some_inj] at h
    subst h
    refine ⟨?_, ?_, ?_⟩
    · rcases met with _ | n
      · rfl
      · cases n <;> simp [inferenceTimeField, jsNumberOfOpt, JNum.truthy]
        rename_i q
        by_cases hq : q = 0 <;> simp [hq]
    · rintro (hm | hm | hm) <;> simp [inferenceTimeField, jsNumberOfOpt, JNum.truthy, hm]
    · intro q hm hq
      simp [inferenceTimeField, jsNumberOfOpt, JNum.truthy, hm, hq]
  · simp [ha] at h

/-- C10 witness: a finite non-zero metric (3) is kept in the success
response. -/
theorem claim_C10_witness :
    (GenerateSuccess.mk "img" none (inferenceTimeField (some (JNum.finite 3)))).inferenceTime =
      some (JNum.finite 3) :=
  (claim_C10_amended (some "img") none none (some (JNum.finite 3))
      (GenerateSuccess.mk "img" none (inferenceTimeField (some (JNum.finite 3)))) rfl).2.2
    3 rfl (by decide)

/-- C10 counterexample: an Infinity metric does not convert to a
non-zero finite number, yet the success response carries the
inferenceTime field. -/
theorem claim_C10_counterexample :
    (generateSuccess (some "img") none none (some JNum.posInf)).map GenerateSuccess.inferenceTime =
      some (some JNum.posInf)
    ∧ JNum.posInf.isFinite = false :=
  ⟨rfl, rfl⟩
